import Mathlib

/-!
# Verification of the SPC Web Gateway client (pyspcwebgw)

Shallow embedding of the Python sources:
  * `spc/pyspcwebgw/area.py`      — class `Area`
  * `spc/pyspcwebgw/utils.py`     — `_load_enum`
  * `spc_new/pyspcwebgw/zone.py`  — class `Zone`
  * `spc_new/pyspcwebgw/__init__.py` — class `SpcWebGateway`

Conventions of the embedding:
  * Python `dict`s are insertion-ordered association lists (`List (String × α)`);
    insertion overwrites an existing key in place, otherwise appends.
  * A transport call (`async_get_request`) either fails — which the transport
    collapses to the falsy value `False` — or yields a decoded payload; both
    outcomes are an `Option`.  For the per-entity refresh fetches we let the
    oracle return the already-extracted record (`data['data']['area'][0]`
    resp. the shape-normalised `data['data']['zone']`), since every claim
    concerns only the falsy/successful dichotomy of the fetch.
  * Python object references from a `Zone` back to its owning `Area` are
    modelled by the area's identifier (the object is stored in the gateway's
    area map under exactly that key).
  * Raised Python exceptions are `Except PyError`.
  * `const.py` is not among the sources; its enumerations are modelled from
    the spec where needed (each such definition says so in its doc comment).
-/

/-- A raised Python exception, carrying the relevant name or message. -/
inductive PyError where
  | attributeError (name : String)
  | keyError (key : String)
  | typeError (msg : String)
  | runtimeError (msg : String)
deriving DecidableEq, Repr

/-- Lookup `d.get k` / `d[k]` on an insertion-ordered dict. -/
def dictGet (d : List (String × α)) (k : String) : Option α :=
  (d.find? (fun p => p.1 == k)).map Prod.snd

/-- Assignment `d[k] = v` on an insertion-ordered dict: overwrite in place if
the key is present, otherwise append. -/
def dictInsert (d : List (String × α)) (k : String) (v : α) : List (String × α) :=
  if d.any (fun p => p.1 == k) then
    d.map (fun p => if p.1 == k then (k, v) else p)
  else d ++ [(k, v)]

/-- A Python dict built from a sequence of key/value pairs in order (a dict
comprehension): a later pair with the same key overwrites the earlier one. -/
def dictOfPairs (ps : List (String × α)) : List (String × α) :=
  ps.foldl (fun d p => dictInsert d p.1 p.2) []

/-- Merge `d.update(e)` on insertion-ordered dicts. -/
def dictUpdate (d e : List (String × α)) : List (String × α) :=
  e.foldl (fun d p => dictInsert d p.1 p.2) d

/-- A decoded JSON-like Python value, as far as the claims need it: a string
leaf or a string-keyed object. -/
inductive PyObj where
  | str (s : String)
  | pyDict (fields : List (String × PyObj))

/-- Python subscription `o[k]`: `KeyError` on a missing key, `TypeError` when
subscripting a string with a string key. -/
def PyObj.getItem (o : PyObj) (k : String) : Except PyError PyObj :=
  match o with
  | .str _ => .error (.typeError "string indices must be integers")
  | .pyDict fs =>
    match dictGet fs k with
    | some v => .ok v
    | none => .error (.keyError k)

/-- Python `str()` of a value, as used by `"{}".format(...)` (total; never
raises). -/
def PyObj.toStr : PyObj → String
  | .str s => s
  | .pyDict _ => "<dict>"

/-- Embeds `utils._load_enum(enum, value, default=None)` (utils.py lines 7-12):
coerce a raw value into an enumeration member, returning the default `None`
(here `none`) instead of propagating `ValueError`.  The enumeration's partial
constructor is the `parse` argument. -/
def _load_enum (parse : String → Option α) (value : String) : Option α :=
  parse value

/-- Modelled from the spec: `const.py` is absent from the sources.  Spec §3
fixes the member set of the area-mode enumeration as UNSET, PART_SET_A,
PART_SET_B, FULL_SET (the "unrecognized" sentinel is the `None` default of
`_load_enum`, i.e. `none`, not a member). -/
inductive AreaMode where
  | UNSET
  | PART_SET_A
  | PART_SET_B
  | FULL_SET
deriving DecidableEq, Repr

/-- Modelled from the spec: the wire encoding of `AreaMode` values is not
given by the sources or the spec; any injective partial decoding works for
the claims, so the member names are used. -/
def AreaMode.parse : String → Option AreaMode
  | "unset" => some .UNSET
  | "part_set_a" => some .PART_SET_A
  | "part_set_b" => some .PART_SET_B
  | "full_set" => some .FULL_SET
  | _ => none

/-- Modelled from the spec: zone input-level enumeration (spec §3, "open /
closed family"); members beyond the claims' needs are irrelevant. -/
inductive ZoneInput where
  | closed
  | opened
deriving DecidableEq, Repr

/-- Modelled from the spec: decoding for `ZoneInput`; the encoding is not
fixed by the sources, member names are used. -/
def ZoneInput.parse : String → Option ZoneInput
  | "closed" => some .closed
  | "opened" => some .opened
  | _ => none

/-- Modelled from the spec: zone sensor-type enumeration (spec §3). -/
inductive ZoneType where
  | alarm
  | entryExit
deriving DecidableEq, Repr

/-- Modelled from the spec: decoding for `ZoneType`. -/
def ZoneType.parse : String → Option ZoneType
  | "alarm" => some .alarm
  | "entry_exit" => some .entryExit
  | _ => none

/-- Modelled from the spec: zone status enumeration (spec §3, "normal / alarm
/ tamper family"). -/
inductive ZoneStatus where
  | ok
  | alarm
  | tamper
deriving DecidableEq, Repr

/-- Modelled from the spec: decoding for `ZoneStatus`. -/
def ZoneStatus.parse : String → Option ZoneStatus
  | "ok" => some .ok
  | "alarm" => some .alarm
  | "tamper" => some .tamper
  | _ => none

/-- The record `data['data']['zone'][...]` for one zone, with the fields the
source reads: `id`, `zone_name`, `area` (the owning area's id, used by the
load filter), and the raw `input` / `type` / `status` codes. -/
structure ApiZoneData where
  id : String
  zone_name : String
  area : String
  input : String
  type : String
  status : String
deriving DecidableEq, Repr

/-- The state of a `Zone` instance (zone.py): the attributes assigned in
`Zone.__init__` and `Zone._update`.  The `_area` back-reference is modelled
by the owning area's identifier. -/
structure ZoneState where
  id : String
  name : String
  areaId : String
  input : Option ZoneInput
  type : Option ZoneType
  status : Option ZoneStatus
deriving DecidableEq, Repr

/-- Embeds `Zone._update(spc_zone, sia_code=None)` (zone.py lines 64-69): replace
`input`, `type` and `status` via `_load_enum`; the `sia_code` parameter is
unused in the source. -/
def ZoneState._update (z : ZoneState) (spc_zone : ApiZoneData)
    (sia_code : Option String) : ZoneState :=
  { z with
    input := _load_enum ZoneInput.parse spc_zone.input
    type := _load_enum ZoneType.parse spc_zone.type
    status := _load_enum ZoneStatus.parse spc_zone.status }

/-- Embeds `Zone.__init__(gateway, area, spc_zone)` (zone.py lines 25-31): record
identity, display name and the owning-area back-reference, then `_update`
with the same record. -/
def Zone.init (area_id : String) (spc_zone : ApiZoneData) : ZoneState :=
  ZoneState._update
    { id := spc_zone.id, name := spc_zone.zone_name, areaId := area_id,
      input := none, type := none, status := none }
    spc_zone none

/-- Embeds `Zone.update_state(sia_code=None)` (zone.py lines 73-79): a scoped fetch
for this zone's identifier; on falsy data do nothing, otherwise `_update`
with the extracted record and the event code.  The fetch oracle returns the
record after the source's list-or-single shape normalisation. -/
def ZoneState.update_state (fetch : String → Option ApiZoneData)
    (sia_code : Option String) (z : ZoneState) : ZoneState :=
  match fetch z.id with
  | some d => z._update d sia_code
  | none => z

/-- Embeds `Zone.SUPPORTED_SIA_CODES` (zone.py lines 12-23). -/
def Zone.SUPPORTED_SIA_CODES : List String :=
  ["ZO", "ZC", "ZX", "ZD", "ZM", "BA", "BB", "BU", "BR", "BC"]

/-- The instance attributes a `Zone` object carries: exactly those assigned
in `Zone.__init__` and `Zone._update` (zone.py lines 25-31 and 64-69). -/
def Zone.instanceAttrs : List String :=
  ["_gateway", "_id", "_name", "_area", "_input", "_type", "_status"]

/-- The class-level attributes of `Zone`: the class constant and the
properties and methods declared in the class body (zone.py). -/
def Zone.classAttrs : List String :=
  ["SUPPORTED_SIA_CODES", "__init__", "__str__", "id", "unique_id", "name",
   "input", "type", "status", "area", "_update", "update_state"]

/-- Python attribute lookup `self.<n>` on a `Zone` instance: resolves through
the instance attributes and then the class attributes, raising
`AttributeError` when the name is defined in neither. -/
def Zone.getattrName (n : String) : Except PyError Unit :=
  if (Zone.instanceAttrs ++ Zone.classAttrs).contains n then .ok ()
  else .error (.attributeError n)

/-- The record `data['data']['area'][0]` for one area, with the fields the
source reads (area.py): `id`, `name`, the raw `mode` code, and the two
optional last-actor names (absent field modelled as `none`, read via
`.get(..., 'N/A')` semantics). -/
structure ApiAreaData where
  id : String
  name : String
  mode : String
  last_set_user_name : Option String
  last_unset_user_name : Option String
deriving DecidableEq, Repr

/-- The state of an `Area` instance (area.py): the attributes assigned in
`Area.__init__` and `Area._update`.  `zones` is `None` until
`async_load_parameters` assigns the owned collection. -/
structure AreaState where
  id : String
  name : String
  mode : Option AreaMode
  verified_alarm : Bool
  last_set_user_name : String
  last_unset_user_name : String
  zones : Option (List ZoneState)
deriving DecidableEq, Repr

/-- Embeds `Area._update(api_data, sia_code=None)` (area.py lines 59-64): replace
`mode` via `_load_enum`, derive `verified_alarm` as `sia_code == 'BV'`, and
replace both last-actor names with `'N/A'` defaulting. -/
def AreaState._update (a : AreaState) (api_data : ApiAreaData)
    (sia_code : Option String) : AreaState :=
  { a with
    mode := _load_enum AreaMode.parse api_data.mode
    verified_alarm := sia_code == some "BV"
    last_set_user_name := api_data.last_set_user_name.getD "N/A"
    last_unset_user_name := api_data.last_unset_user_name.getD "N/A" }

/-- Embeds `Area.__init__(gateway, spc_area)` (area.py lines 21-28): record identity
and display name, initialise `verified_alarm` to `False` and `zones` to
`None`, then `_update(spc_area)` with the default `sia_code=None`. -/
def Area.init (spc_area : ApiAreaData) : AreaState :=
  AreaState._update
    { id := spc_area.id, name := spc_area.name, mode := none,
      verified_alarm := false, last_set_user_name := "",
      last_unset_user_name := "", zones := none }
    spc_area none

/-- Embeds `Area.last_changed_by` (area.py lines 52-57): the last-set user name when
the mode is `UNSET`, the last-unset user name otherwise (also when the mode
is the unrecognised `None` sentinel). -/
def AreaState.last_changed_by (a : AreaState) : String :=
  if a.mode == some AreaMode.UNSET then a.last_set_user_name
  else a.last_unset_user_name

/-- Embeds `Area.update_state(sia_code=None)` (area.py lines 66-71): a scoped fetch
for this area's identifier; on falsy data do nothing, otherwise
`self._update(data)` — note that, as in the source, `sia_code` is NOT
forwarded to `_update`, which therefore sees its default `None`. -/
def AreaState.update_state (fetch : String → Option ApiAreaData)
    (sia_code : Option String) (a : AreaState) : AreaState :=
  match fetch a.id with
  | some d => a._update d none
  | none => a

/-- Embeds `Area.SUPPORTED_SIA_CODES` (area.py lines 12-20). -/
def Area.SUPPORTED_SIA_CODES : List String :=
  ["CG", "OG", "BV", "CL", "NL", "OP", "ZG"]

/-- Embeds `SpcWebGateway.serial_number` (\_\_init\_\_.py lines 48-50): the chained
subscription `self._info["data"]["panel"]["sn"]` on the stored panel info. -/
def SpcWebGateway.serial_number (info : PyObj) : Except PyError PyObj := do
  let d ← info.getItem "data"
  let p ← d.getItem "panel"
  p.getItem "sn"

/-- Embeds `Zone.unique_id` (zone.py lines 42-44): the body is
`"{}-{}".format(self.gateway.serial_number, self.id)`.  Python first resolves
the attribute access `self.gateway` (raising `AttributeError` when the name
is neither an instance nor a class attribute of `Zone`), then the gateway's
`serial_number` property on the stored panel info, then formats. -/
def ZoneState.unique_id (gw_info : PyObj) (z : ZoneState) :
    Except PyError String := do
  let _ ← Zone.getattrName "gateway"
  let sn ← SpcWebGateway.serial_number gw_info
  pure (sn.toStr ++ "-" ++ z.id)

/-- The mutable state of a `SpcWebGateway` (\_\_init\_\_.py lines 22-31):
panel info, the two entity registries, and whether an observer callback was
registered (`self._async_callback`). -/
structure Gateway where
  info : Option PyObj
  areas : List (String × AreaState)
  zones : List (String × ZoneState)
  hasCallback : Bool

/-- Embeds `SpcWebGateway.__init__` as far as the mutable state is concerned:
both registries start empty and no panel info is loaded. -/
def SpcWebGateway.mk0 (hasCallback : Bool) : Gateway :=
  { info := none, areas := [], zones := [], hasCallback := hasCallback }

/-- A Python falsy check on the result of `_async_get_zones` /
`_async_get_areas`: falsy when the transport failed (`None` result) or the
returned list is empty. -/
def isFalsyList : Option (List α) → Bool
  | none => true
  | some l => l.isEmpty

/-- Embeds `SpcWebGateway.async_load_parameters` (\_\_init\_\_.py lines 60-83):
store the panel info, fail on a falsy zone or area list, fail on more than
one area, otherwise construct the single `Area`, its owned `Zone`s (those
whose `area` field matches the area's id), and populate both registries.
The three fetch results are passed as oracles. -/
def async_load_parameters (gw : Gateway) (panel : Option PyObj)
    (zonesFetch : Option (List ApiZoneData))
    (areasFetch : Option (List ApiAreaData)) : Bool × Gateway :=
  let gw1 : Gateway := { gw with info := panel }
  if isFalsyList zonesFetch || isFalsyList areasFetch then (false, gw1)
  else
    let zones := zonesFetch.getD []
    let areas := areasFetch.getD []
    if areas.length > 1 then (false, gw1)
    else
      (true, areas.foldl (fun gw spc_area =>
        let area := Area.init spc_area
        let area_zones :=
          (zones.filter (fun z => z.area == spc_area.id)).map (Zone.init area.id)
        let area := { area with zones := some area_zones }
        { gw with
          areas := dictInsert gw.areas area.id area
          zones := dictUpdate gw.zones
            (dictOfPairs (area_zones.map (fun z => (z.id, z)))) }) gw1)

/-- A Python value passed as the `new_mode` argument of `change_mode`: an
`AreaMode` member or any value of another type. -/
inductive PyVal where
  | mode (m : AreaMode)
  | str (s : String)
  | int (n : Int)
  | noneV
deriving DecidableEq, Repr

/-- The dict `AREA_MODE_COMMAND_MAP` of `change_mode` (\_\_init\_\_.py lines
91-96), total on the four `AreaMode` members. -/
def AREA_MODE_COMMAND_MAP : AreaMode → String
  | .UNSET => "unset"
  | .PART_SET_A => "set_a"
  | .PART_SET_B => "set_b"
  | .FULL_SET => "set"

/-- Embeds `SpcWebGateway.change_mode` (\_\_init\_\_.py lines 85-105), restricted to
the validation and command construction the claims concern: raise `TypeError`
unless `new_mode` is an `AreaMode`, otherwise build the PUT url
`spc/area/<area_id>/<command>` from `AREA_MODE_COMMAND_MAP`.  (The transport
call and the forced refresh that follow involve no further mode logic.) -/
def change_mode_command (area_id : String) (new_mode : PyVal) :
    Except PyError String :=
  match new_mode with
  | .mode m => .ok ("spc/area/" ++ area_id ++ "/" ++ AREA_MODE_COMMAND_MAP m)
  | _ => .error (.typeError "new_mode must be an AreaMode")

/-- A resolved entity, as passed to the observer callback. -/
inductive Entity where
  | area (a : AreaState)
  | zone (z : ZoneState)
deriving DecidableEq, Repr

/-- A refresh invocation performed by the push handler: the kind of entity
and the identifier its scoped fetch uses. -/
inductive Ref where
  | areaRef (id : String)
  | zoneRef (id : String)
deriving DecidableEq, Repr

/-- The `sia` member of a decoded push payload
(`data['data']['sia']`, \_\_init\_\_.py lines 109-111). -/
structure SiaMessage where
  sia_address : String
  sia_code : String
deriving DecidableEq, Repr

/-- Embeds `SpcWebGateway._async_ws_handler` (\_\_init\_\_.py lines 107-134).
Area-class code: with exactly one loaded area, resolve that sole area
(`list(self._areas.values())[0]`, the address is not consulted), otherwise
raise `RuntimeError`.  Zone-class code: look the zone up by address;
a missing zone is logged and the event discarded.  Any other code is
discarded.  A resolved entity is refreshed via `update_state(sia_code)`
(in-place mutation, modelled by replacing the registry entry), and the
observer callback is scheduled once with the refreshed entity when one is
registered.  The result carries the new gateway state, the list of refresh
invocations performed and the list of observer invocations scheduled. -/
def _async_ws_handler (gw : Gateway) (fetchArea : String → Option ApiAreaData)
    (fetchZone : String → Option ApiZoneData) (msg : SiaMessage) :
    Except PyError (Gateway × List Ref × List Entity) :=
  let spc_id := msg.sia_address
  let sia_code := msg.sia_code
  if Area.SUPPORTED_SIA_CODES.contains sia_code then
    match gw.areas with
    | [(k, a)] =>
      let a2 := a.update_state fetchArea (some sia_code)
      .ok ({ gw with areas := [(k, a2)] }, [.areaRef a.id],
           if gw.hasCallback then [.area a2] else [])
    | _ => .error (.runtimeError "More than 1 area configured")
  else if Zone.SUPPORTED_SIA_CODES.contains sia_code then
    match dictGet gw.zones spc_id with
    | none => .ok (gw, [], [])
    | some z =>
      let z2 := z.update_state fetchZone (some sia_code)
      .ok ({ gw with zones := dictInsert gw.zones spc_id z2 }, [.zoneRef z.id],
           if gw.hasCallback then [.zone z2] else [])
  else .ok (gw, [], [])

/-- The concatenation, over the area registry in order, of every area's owned
zone collection (an unset collection contributes nothing). -/
def Gateway.allAreaZones (gw : Gateway) : List ZoneState :=
  (gw.areas.map (fun p => p.2.zones.getD [])).flatten

/-- The registry-consistency invariant of claim C9: every zone's owning-area
back-reference names a key of the area registry; every zone of every area's
collection is found in the zone registry under its identifier; every zone
registry entry is keyed by its zone's identifier and its zone occurs in some
area's collection; and the two sides have the same cardinality (no
duplicates). -/
def Gateway.registryConsistent (gw : Gateway) : Prop :=
  (∀ p ∈ gw.zones, (gw.areas.map Prod.fst).contains p.2.areaId) ∧
  (∀ z ∈ gw.allAreaZones, dictGet gw.zones z.id = some z) ∧
  (∀ p ∈ gw.zones, p.1 = p.2.id ∧ p.2 ∈ gw.allAreaZones) ∧
  gw.allAreaZones.length = gw.zones.length

/-! ## Concrete fixtures used by witnesses and counterexamples -/

/-- A concrete area record as returned by the controller. -/
def areaRecDemo : ApiAreaData :=
  { id := "1", name := "house", mode := "full_set",
    last_set_user_name := some "alice", last_unset_user_name := some "bob" }

/-- A concrete zone record as returned by the controller. -/
def zoneRecDemo : ApiZoneData :=
  { id := "7", zone_name := "door", area := "1",
    input := "closed", type := "alarm", status := "ok" }

/-- A concrete loaded area state. -/
def areaDemo : AreaState :=
  { id := "1", name := "house", mode := some .FULL_SET, verified_alarm := false,
    last_set_user_name := "alice", last_unset_user_name := "bob", zones := none }

/-- A concrete loaded zone state. -/
def zoneDemo : ZoneState :=
  { id := "7", name := "door", areaId := "1",
    input := some .closed, type := some .alarm, status := some .ok }

/-- A gateway with one loaded area, one loaded zone and a registered
observer callback. -/
def gwDemo : Gateway :=
  { info := none, areas := [("1", areaDemo)], zones := [("7", zoneDemo)],
    hasCallback := true }

/-! ## Claims -/

/-- C1 (code bug): after every successful `Area` refresh the
`verified_alarm` property is `false` — even when the refresh was invoked
with event code "BV" — because `Area.update_state` (area.py line 71) calls
`self._update(data)` without forwarding its `sia_code` argument, so
`_update` always sees its default `None`.  The claim (and spec §4.3/§8)
says the flag is true after a "BV"-driven refresh. -/
theorem c1_verified_alarm_never_set (a : AreaState)
    (fetch : String → Option ApiAreaData) (d : ApiAreaData)
    (code : Option String) (h : fetch a.id = some d) :
    (a.update_state fetch code).verified_alarm = false := by
  unfold AreaState.update_state
  rw [h]
  rfl

/-- Witness for C1: a concrete area whose scoped fetch succeeds, refreshed
with event code "BV", ends with `verified_alarm = false`. -/
theorem c1_verified_alarm_never_set_witness :
    ((fun _ => some areaRecDemo) : String → Option ApiAreaData) areaDemo.id
        = some areaRecDemo ∧
    (areaDemo.update_state (fun _ => some areaRecDemo) (some "BV")).verified_alarm
        = false :=
  ⟨rfl, c1_verified_alarm_never_set areaDemo (fun _ => some areaRecDemo)
    areaRecDemo (some "BV") rfl⟩

/-- C2 (code bug): reading `Zone.unique_id` always raises `AttributeError`
for every loaded zone and every stored panel info: the property body reads
`self.gateway`, but a `Zone` instance stores the gateway under `_gateway`
and the class declares no `gateway` attribute or property.  (Independently,
even via `_gateway`, `SpcWebGateway.serial_number` would raise `KeyError`
"data", since `_info` already holds the extracted panel record.)  The claim
says the read returns a serial-number/zone-id combination without raising. -/
theorem c2_unique_id_raises (z : ZoneState) (info : PyObj) :
    z.unique_id info = .error (.attributeError "gateway") := by
  unfold ZoneState.unique_id Zone.getattrName
  rfl

/-- C7: a refresh whose scoped fetch returns no data (the falsy transport
result) leaves every observable attribute of the entity unchanged — the
whole `Zone` resp. `Area` state is equal before and after — and raises
nothing (the embedding of `update_state` is total). -/
theorem c7_refresh_no_data_unchanged (z : ZoneState) (a : AreaState)
    (fz : String → Option ApiZoneData) (fa : String → Option ApiAreaData)
    (cz ca : Option String) (hz : fz z.id = none) (ha : fa a.id = none) :
    z.update_state fz cz = z ∧ a.update_state fa ca = a := by
  constructor
  · unfold ZoneState.update_state
    rw [hz]
  · unfold AreaState.update_state
    rw [ha]

/-- Witness for C7: a concrete zone and area refreshed against a failing
transport keep their exact state. -/
theorem c7_refresh_no_data_unchanged_witness :
    ((fun _ => none) : String → Option ApiZoneData) zoneDemo.id = none ∧
    ((fun _ => none) : String → Option ApiAreaData) areaDemo.id = none ∧
    zoneDemo.update_state (fun _ => none) (some "ZO") = zoneDemo ∧
    areaDemo.update_state (fun _ => none) (some "OG") = areaDemo :=
  ⟨rfl, rfl,
   c7_refresh_no_data_unchanged zoneDemo areaDemo (fun _ => none)
     (fun _ => none) (some "ZO") (some "OG") rfl rfl⟩

/-- C8: for every `Area` state, `last_changed_by` reads the last-set user
name when the mode is `UNSET`, and the last-unset user name for every other
mode value — including the unrecognised sentinel `none`. -/
theorem c8_last_changed_by_cases (a : AreaState) :
    (a.mode = some AreaMode.UNSET →
      a.last_changed_by = a.last_set_user_name) ∧
    (a.mode ≠ some AreaMode.UNSET →
      a.last_changed_by = a.last_unset_user_name) ∧
    (a.mode = none → a.last_changed_by = a.last_unset_user_name) := by
  refine ⟨fun h => ?_, fun h => ?_, fun h => ?_⟩
  · simp [AreaState.last_changed_by, h]
  · simp [AreaState.last_changed_by, h]
  · simp [AreaState.last_changed_by, h]

/-- Witness for C8: a concrete armed area reports the last-unset user, and
the same area with the unrecognised sentinel mode also reports the
last-unset user. -/
theorem c8_last_changed_by_cases_witness :
    areaDemo.last_changed_by = areaDemo.last_unset_user_name ∧
    ({ areaDemo with mode := none } : AreaState).last_changed_by
      = ({ areaDemo with mode := none } : AreaState).last_unset_user_name :=
  ⟨(c8_last_changed_by_cases areaDemo).2.1 (by decide),
   (c8_last_changed_by_cases { areaDemo with mode := none }).2.2 rfl⟩

/-- Reassociation helper for the literal wire-command suffix of a PUT url. -/
lemma url_append_cmd (a s t : String) (h : "/" ++ s = t) :
    a ++ "/" ++ s = a ++ t := by
  rw [String.append_assoc, h]

/-- C6: `change_mode` maps the four supported modes to exactly the wire
commands unset / set_a / set_b / set in the PUT url it issues, and raises
`TypeError` for every `new_mode` value that is not an `AreaMode` member. -/
theorem c6_change_mode_mapping (area_id : String) :
    change_mode_command area_id (.mode .UNSET)
        = .ok ("spc/area/" ++ area_id ++ "/unset") ∧
    change_mode_command area_id (.mode .PART_SET_A)
        = .ok ("spc/area/" ++ area_id ++ "/set_a") ∧
    change_mode_command area_id (.mode .PART_SET_B)
        = .ok ("spc/area/" ++ area_id ++ "/set_b") ∧
    change_mode_command area_id (.mode .FULL_SET)
        = .ok ("spc/area/" ++ area_id ++ "/set") ∧
    ∀ v : PyVal, (∀ m : AreaMode, v ≠ .mode m) →
      change_mode_command area_id v
        = .error (.typeError "new_mode must be an AreaMode") := by
  refine ⟨congrArg Except.ok (url_append_cmd _ "unset" "/unset" rfl),
    congrArg Except.ok (url_append_cmd _ "set_a" "/set_a" rfl),
    congrArg Except.ok (url_append_cmd _ "set_b" "/set_b" rfl),
    congrArg Except.ok (url_append_cmd _ "set" "/set" rfl),
    fun v hv => ?_⟩
  cases v with
  | mode m => exact absurd rfl (hv m)
  | str s => rfl
  | int n => rfl
  | noneV => rfl

/-- Witness for C6: passing the string "set" (not an `AreaMode` member)
raises `TypeError`. -/
theorem c6_change_mode_mapping_witness :
    change_mode_command "1" (.str "set")
      = .error (.typeError "new_mode must be an AreaMode") :=
  (c6_change_mode_mapping "1").2.2.2.2 (.str "set")
    (fun _ h => PyVal.noConfusion h)

/-- C3 counterexample: the claim as stated is false.  With exactly one area
loaded (id "1") and an empty zone registry, a push payload with area-class
code "CG" and address "999" — which matches no loaded entity — still
produces one observer invocation, because the handler resolves area-class
codes to the sole area without consulting the address. -/
theorem c3_counterexample :
    (_async_ws_handler gwDemo (fun _ => none) (fun _ => none)
        { sia_address := "999", sia_code := "CG" }).map
      (fun r => r.2.2.length) = .ok 1 := rfl

/-- C3 (amended): for every push payload whose `sia_code` is NOT an
area-class code and whose `sia_address` matches no loaded entity, the
handler performs no refresh, schedules no observer invocation and raises
no error: the event is discarded. -/
theorem c3_unknown_target_discarded (gw : Gateway)
    (fa : String → Option ApiAreaData) (fz : String → Option ApiZoneData)
    (msg : SiaMessage)
    (hcode : msg.sia_code ∉ Area.SUPPORTED_SIA_CODES)
    (hzone : dictGet gw.zones msg.sia_address = none)
    (harea : dictGet gw.areas msg.sia_address = none) :
    _async_ws_handler gw fa fz msg = .ok (gw, [], []) := by
  unfold _async_ws_handler
  by_cases hzc : Zone.SUPPORTED_SIA_CODES.contains msg.sia_code = true <;>
    simp [hcode, hzc, hzone]

/-- Witness for C3: a payload with zone-class code "ZO" and an address
matching nothing is discarded with zero observer invocations. -/
theorem c3_unknown_target_discarded_witness :
    _async_ws_handler gwDemo (fun _ => none) (fun _ => none)
        { sia_address := "999", sia_code := "ZO" } = .ok (gwDemo, [], []) :=
  c3_unknown_target_discarded gwDemo (fun _ => none) (fun _ => none)
    { sia_address := "999", sia_code := "ZO" } (by decide) rfl rfl

/-- C4: for every push payload with `sia_code` "ZO" and `sia_address` equal
to the key of a loaded zone, given a registered observer callback, the
handler performs exactly one refresh — of that zone — and schedules exactly
one observer invocation, whose argument is that (refreshed) zone. -/
theorem c4_zone_event_one_refresh_one_callback (gw : Gateway)
    (fa : String → Option ApiAreaData) (fz : String → Option ApiZoneData)
    (addr : String) (z : ZoneState)
    (hz : dictGet gw.zones addr = some z) (hcb : gw.hasCallback = true) :
    _async_ws_handler gw fa fz { sia_address := addr, sia_code := "ZO" } =
      .ok ({ gw with
              zones := dictInsert gw.zones addr (z.update_state fz (some "ZO")) },
           [.zoneRef z.id], [.zone (z.update_state fz (some "ZO"))]) := by
  unfold _async_ws_handler
  have h1 : Area.SUPPORTED_SIA_CODES.contains "ZO" = false := rfl
  have h2 : Zone.SUPPORTED_SIA_CODES.contains "ZO" = true := rfl
  simp only [h1, h2, hz, hcb, Bool.false_eq_true, if_false, if_true]

/-- Witness for C4: the concrete gateway with zone "7" loaded handles a
"ZO" event for address "7" with one refresh of that zone and one observer
invocation carrying it. -/
theorem c4_zone_event_one_refresh_one_callback_witness :
    _async_ws_handler gwDemo (fun _ => none) (fun _ => none)
        { sia_address := "7", sia_code := "ZO" } =
      .ok ({ gwDemo with
              zones := dictInsert gwDemo.zones "7"
                (zoneDemo.update_state (fun _ => none) (some "ZO")) },
           [.zoneRef "7"], [.zone (zoneDemo.update_state (fun _ => none) (some "ZO"))]) :=
  c4_zone_event_one_refresh_one_callback gwDemo (fun _ => none) (fun _ => none)
    "7" zoneDemo rfl rfl

/-- C10: when the handler receives an area-class code (one of the seven
`Area.SUPPORTED_SIA_CODES`) while the number of loaded areas differs from
one, it raises `RuntimeError`; when exactly one area is loaded it resolves
that sole area — refreshing it and notifying — without consulting the
payload's `sia_address` (the outcome is identical for any two addresses). -/
theorem c10_area_event_resolution (gw : Gateway)
    (fa : String → Option ApiAreaData) (fz : String → Option ApiZoneData)
    (addr code : String)
    (hcode : code ∈ Area.SUPPORTED_SIA_CODES) :
    (gw.areas.length ≠ 1 →
      _async_ws_handler gw fa fz { sia_address := addr, sia_code := code }
        = .error (.runtimeError "More than 1 area configured")) ∧
    (∀ k a, gw.areas = [(k, a)] →
      _async_ws_handler gw fa fz { sia_address := addr, sia_code := code }
        = .ok ({ gw with areas := [(k, a.update_state fa (some code))] },
               [.areaRef a.id],
               if gw.hasCallback then [.area (a.update_state fa (some code))]
               else [])) ∧
    (∀ addr2,
      _async_ws_handler gw fa fz { sia_address := addr, sia_code := code }
        = _async_ws_handler gw fa fz { sia_address := addr2, sia_code := code }) := by
  refine ⟨fun h => ?_, fun k a ha => ?_, fun addr2 => ?_⟩
  · rcases hA : gw.areas with _ | ⟨⟨k, a⟩, _ | ⟨q, t⟩⟩
    · simp [_async_ws_handler, hcode, hA]
    · exact absurd (by rw [hA]; rfl) h
    · simp [_async_ws_handler, hcode, hA]
  · simp [_async_ws_handler, hcode, ha]
  · simp [_async_ws_handler, hcode]

/-- Witness for C10: with zero areas loaded (as before any successful load),
an area-class "CG" event raises `RuntimeError` instead of being discarded. -/
theorem c10_area_event_resolution_witness :
    _async_ws_handler (SpcWebGateway.mk0 true) (fun _ => none) (fun _ => none)
        { sia_address := "1", sia_code := "CG" }
      = .error (.runtimeError "More than 1 area configured") :=
  (c10_area_event_resolution (SpcWebGateway.mk0 true) (fun _ => none)
    (fun _ => none) "1" "CG" (by decide)).1 (by decide)

/-- C5: on a fresh gateway, `async_load_parameters` reports failure exactly
when the zone list fetch or the area list fetch yields nothing (a falsy
result: transport failure or an empty list) or the controller reports two
or more areas — and on every failure both entity registries stay empty;
otherwise it reports success. -/
theorem c5_load_parameters (cb : Bool) (panel : Option PyObj)
    (zf : Option (List ApiZoneData)) (af : Option (List ApiAreaData)) :
    ((async_load_parameters (SpcWebGateway.mk0 cb) panel zf af).1 =
      (!isFalsyList zf && !isFalsyList af
        && decide ((af.getD []).length ≤ 1))) ∧
    ((async_load_parameters (SpcWebGateway.mk0 cb) panel zf af).1 = false →
      (async_load_parameters (SpcWebGateway.mk0 cb) panel zf af).2.areas = [] ∧
      (async_load_parameters (SpcWebGateway.mk0 cb) panel zf af).2.zones = []) := by
  by_cases h1 : (isFalsyList zf || isFalsyList af) = true
  · constructor
    · rcases Bool.or_eq_true_iff.mp h1 with h | h <;>
        simp [async_load_parameters, h1, h]
    · intro _
      simp [async_load_parameters, h1, SpcWebGateway.mk0]
  · have hz : isFalsyList zf = false := by
      rcases Bool.or_eq_false_iff.mp (Bool.not_eq_true _ |>.mp h1) with ⟨h, _⟩
      exact h
    have ha : isFalsyList af = false := by
      rcases Bool.or_eq_false_iff.mp (Bool.not_eq_true _ |>.mp h1) with ⟨_, h⟩
      exact h
    by_cases h2 : (af.getD []).length > 1
    · constructor
      · simp [async_load_parameters, h1, h2, hz, ha, Nat.not_le.mpr h2]
      · intro _
        simp [async_load_parameters, h1, h2, SpcWebGateway.mk0]
    · constructor
      · simp [async_load_parameters, h1, h2, hz, ha, Nat.not_lt.mp h2]
      · intro hfst
        exfalso
        rw [(by simp [async_load_parameters, h1, h2] :
          (async_load_parameters (SpcWebGateway.mk0 cb) panel zf af).1 = true)]
          at hfst
        exact Bool.noConfusion hfst

/-- Witness for C5: with two reported areas the load fails and both
registries stay empty. -/
theorem c5_load_parameters_witness :
    (async_load_parameters (SpcWebGateway.mk0 true) none (some [zoneRecDemo])
        (some [areaRecDemo, { areaRecDemo with id := "2" }])).1 = false ∧
    (async_load_parameters (SpcWebGateway.mk0 true) none (some [zoneRecDemo])
        (some [areaRecDemo, { areaRecDemo with id := "2" }])).2.areas = [] ∧
    (async_load_parameters (SpcWebGateway.mk0 true) none (some [zoneRecDemo])
        (some [areaRecDemo, { areaRecDemo with id := "2" }])).2.zones = [] := by
  have h := c5_load_parameters true none (some [zoneRecDemo])
    (some [areaRecDemo, { areaRecDemo with id := "2" }])
  have hf : (async_load_parameters (SpcWebGateway.mk0 true) none (some [zoneRecDemo])
      (some [areaRecDemo, { areaRecDemo with id := "2" }])).1 = false :=
    h.1.trans (by decide)
  exact ⟨hf, h.2 hf⟩

/-- Inserting a fresh key into a dict appends the pair at the end. -/
lemma dictInsert_fresh (d : List (String × α)) (k : String) (v : α)
    (h : k ∉ d.map Prod.fst) : dictInsert d k v = d ++ [(k, v)] := by
  unfold dictInsert
  rw [if_neg]
  intro hc
  rcases List.any_eq_true.mp hc with ⟨p, hp, hpk⟩
  exact h (by
    rw [← beq_iff_eq.mp hpk]
    exact List.mem_map_of_mem Prod.fst hp)

/-- Folding dict insertion over pairs with globally distinct keys just
appends them in order. -/
lemma foldl_dictInsert_of_nodup (ps : List (String × α)) :
    ∀ acc : List (String × α), ((acc ++ ps).map Prod.fst).Nodup →
      ps.foldl (fun d p => dictInsert d p.1 p.2) acc = acc ++ ps := by
  induction ps with
  | nil => intro acc _; simp
  | cons p t ih =>
    intro acc h
    rw [List.foldl_cons]
    have hmap : ((acc ++ p :: t).map Prod.fst)
        = acc.map Prod.fst ++ p.1 :: t.map Prod.fst := by
      simp
    rw [hmap] at h
    have hk : p.1 ∉ acc.map Prod.fst := by
      intro hmem
      rcases List.nodup_append.mp h with ⟨_, _, hdisj⟩
      exact hdisj hmem (List.mem_cons_self _ _)
    rw [dictInsert_fresh acc p.1 p.2 hk]
    rw [ih (acc ++ [p]) (by simpa using h)]
    simp

/-- Building a dict from pairs with pairwise distinct keys yields exactly
that pair list. -/
lemma dictOfPairs_of_nodup (ps : List (String × α))
    (h : (ps.map Prod.fst).Nodup) : dictOfPairs ps = ps := by
  unfold dictOfPairs
  rw [foldl_dictInsert_of_nodup ps [] (by simpa using h)]
  simp

/-- Looking a zone up, by its own identifier, in the dict of id-keyed pairs
of a duplicate-free zone list finds exactly that zone. -/
lemma dictGet_zone_pairs (zs : List ZoneState) (z : ZoneState)
    (hnd : (zs.map ZoneState.id).Nodup) (hz : z ∈ zs) :
    dictGet (zs.map (fun w => (w.id, w))) z.id = some z := by
  induction zs with
  | nil => cases hz
  | cons w t ih =>
    rw [List.map_cons]
    unfold dictGet
    rw [List.find?_cons]
    by_cases he : w.id == z.id
    · rcases List.mem_cons.mp hz with hzw | hzt
      · subst hzw
        simp [he]
      · exfalso
        have : w.id ∈ t.map ZoneState.id := by
          rw [beq_iff_eq.mp he]
          exact List.mem_map_of_mem ZoneState.id hzt
        exact (List.nodup_cons.mp (by simpa using hnd)).1 this
    · have hzt : z ∈ t := by
        rcases List.mem_cons.mp hz with hzw | hzt
        · subst hzw
          exact absurd (beq_self_eq_true _) he
        · exact hzt
      simp only [he]
      exact ih (List.Nodup.of_cons (by simpa using hnd)) hzt

/-- A gateway with empty registries is trivially registry-consistent. -/
lemma registryConsistent_empty (gw : Gateway) (ha : gw.areas = [])
    (hz : gw.zones = []) : gw.registryConsistent := by
  unfold Gateway.registryConsistent Gateway.allAreaZones
  rw [ha, hz]
  simp

/-- Updating the empty dict with a dict is building a dict from its pairs. -/
lemma dictUpdate_empty (e : List (String × α)) : dictUpdate [] e = dictOfPairs e :=
  rfl

/-- The gateway state built by the loop body of `async_load_parameters` for a
single area record, starting from empty registries, satisfies the registry
consistency invariant whenever the fetched zone identifiers are pairwise
distinct. -/
lemma step_result_consistent (panel : Option PyObj) (cb : Bool)
    (zl : List ApiZoneData) (a0 : ApiAreaData)
    (hnd : (zl.map ApiZoneData.id).Nodup) :
    Gateway.registryConsistent
      { info := panel,
        areas := dictInsert [] (Area.init a0).id
          { Area.init a0 with
            zones := some ((zl.filter (fun z => z.area == a0.id)).map
              (Zone.init (Area.init a0).id)) },
        zones := dictUpdate []
          (dictOfPairs (((zl.filter (fun z => z.area == a0.id)).map
            (Zone.init (Area.init a0).id)).map (fun z => (z.id, z)))),
        hasCallback := cb } := by
  set azs := (zl.filter (fun z => z.area == a0.id)).map
    (Zone.init (Area.init a0).id) with hazs
  have hids : azs.map ZoneState.id
      = (zl.filter (fun z => z.area == a0.id)).map ApiZoneData.id := by
    rw [hazs, List.map_map]
    rfl
  have hndazs : (azs.map ZoneState.id).Nodup := by
    rw [hids]
    exact List.Nodup.sublist
      (List.Sublist.map ApiZoneData.id (List.filter_sublist zl)) hnd
  have hkeys : ((azs.map (fun z => (z.id, z))).map Prod.fst).Nodup := by
    rw [List.map_map]
    exact hndazs
  have hz2 : dictUpdate [] (dictOfPairs (azs.map (fun z => (z.id, z))))
      = azs.map (fun z => (z.id, z)) := by
    rw [dictUpdate_empty]
    rw [dictOfPairs_of_nodup (dictOfPairs (azs.map (fun z => (z.id, z))))
      (by rw [dictOfPairs_of_nodup (azs.map (fun z => (z.id, z))) hkeys]; exact hkeys)]
    exact dictOfPairs_of_nodup (azs.map (fun z => (z.id, z))) hkeys
  rw [hz2]
  have hback : ∀ z ∈ azs, z.areaId = a0.id := by
    intro z hz
    rw [hazs] at hz
    rcases List.mem_map.mp hz with ⟨d, _, rfl⟩
    rfl
  unfold Gateway.registryConsistent Gateway.allAreaZones
  refine ⟨?_, ?_, ?_, ?_⟩
  · intro p hp
    rcases List.mem_map.mp hp with ⟨z, hz, rfl⟩
    have hzz : z.areaId = (Area.init a0).id := (hback z hz).trans rfl
    simp [dictInsert, hzz]
  · intro z hz
    have hz3 : z ∈ azs := by
      simpa [dictInsert] using hz
    exact dictGet_zone_pairs azs z hndazs hz3
  · intro p hp
    rcases List.mem_map.mp hp with ⟨z, hz, rfl⟩
    constructor
    · rfl
    · simpa [dictInsert] using hz
  · simp [dictInsert]

/-- A load against an area fetch reporting exactly one area leaves a
registry-consistent gateway whenever the fetched zone identifiers are
pairwise distinct (trivially so when the zone fetch is falsy, since the
registries then stay empty). -/
lemma load_single_consistent (cb : Bool) (panel : Option PyObj)
    (zf : Option (List ApiZoneData)) (a0 : ApiAreaData)
    (hnd : ((zf.getD []).map ApiZoneData.id).Nodup) :
    (async_load_parameters (SpcWebGateway.mk0 cb) panel zf
        (some [a0])).2.registryConsistent := by
  by_cases hzf : isFalsyList zf = true
  · apply registryConsistent_empty
    · simp [async_load_parameters, hzf, SpcWebGateway.mk0]
    · simp [async_load_parameters, hzf, SpcWebGateway.mk0]
  · have hzf2 : isFalsyList zf = false := Bool.not_eq_true _ |>.mp hzf
    have hfa : isFalsyList (some [a0]) = false := rfl
    unfold async_load_parameters
    simp only [hzf2, hfa, Bool.or_false, Bool.false_eq_true, if_false,
      Option.getD_some, List.length_cons, List.length_nil, gt_iff_lt,
      lt_self_iff_false, List.foldl_cons, List.foldl_nil]
    exact step_result_consistent panel cb (zf.getD []) a0 hnd

/-- C9 counterexample: the claim as stated is false.  When the fetched zone
list reports two zones with the same identifier "7" (differing in name),
`async_load_parameters` succeeds, yet the sole area's zone collection holds
both zones while the zone registry holds only the later one — the claimed
exact correspondence (no duplicates) fails. -/
theorem c9_counterexample :
    (async_load_parameters (SpcWebGateway.mk0 true) none
        (some [zoneRecDemo, { zoneRecDemo with zone_name := "window" }])
        (some [areaRecDemo])).1 = true ∧
    ¬ (async_load_parameters (SpcWebGateway.mk0 true) none
        (some [zoneRecDemo, { zoneRecDemo with zone_name := "window" }])
        (some [areaRecDemo])).2.registryConsistent := by
  constructor
  · decide
  · unfold Gateway.registryConsistent Gateway.allAreaZones
    decide

/-- C9 (amended): after `async_load_parameters` succeeds on a fresh gateway
— provided the fetched zone list carries pairwise distinct zone identifiers
— every zone's owning-area back-reference names an area present in the area
registry, and the union of the areas' zone collections corresponds exactly
to the zone registry: each collected zone is found in the registry under
its identifier and every registry entry is keyed by its zone's identifier
and occurs in some area's collection, with equal cardinality on both sides
(no orphans, no duplicates). -/
theorem c9_registry_bijection (cb : Bool) (panel : Option PyObj)
    (zf : Option (List ApiZoneData)) (af : Option (List ApiAreaData))
    (hnd : ((zf.getD []).map ApiZoneData.id).Nodup)
    (hs : (async_load_parameters (SpcWebGateway.mk0 cb) panel zf af).1 = true) :
    (async_load_parameters (SpcWebGateway.mk0 cb) panel zf
        af).2.registryConsistent := by
  rcases af with _ | al
  · rw [show (async_load_parameters (SpcWebGateway.mk0 cb) panel zf none).1
        = false from by simp [async_load_parameters, isFalsyList]] at hs
    exact Bool.noConfusion hs
  rcases al with _ | ⟨a0, t⟩
  · rw [show (async_load_parameters (SpcWebGateway.mk0 cb) panel zf
        (some [])).1 = false from by
      simp [async_load_parameters, isFalsyList]] at hs
    exact Bool.noConfusion hs
  rcases t with _ | ⟨a1, t2⟩
  · exact load_single_consistent cb panel zf a0 hnd
  · rw [show (async_load_parameters (SpcWebGateway.mk0 cb) panel zf
        (some (a0 :: a1 :: t2))).1 = false from by
      by_cases hzf : isFalsyList zf = true
      · simp [async_load_parameters, hzf]
      · have hzf2 : isFalsyList zf = false := Bool.not_eq_true _ |>.mp hzf
        have hfa : isFalsyList (some (a0 :: a1 :: t2)) = false := rfl
        simp [async_load_parameters, hzf2, hfa]] at hs
    exact Bool.noConfusion hs

/-- Witness for C9: a concrete successful load of one area and two
distinct-id zones yields a registry-consistent gateway. -/
theorem c9_registry_bijection_witness :
    (async_load_parameters (SpcWebGateway.mk0 true) none
        (some [zoneRecDemo, { zoneRecDemo with id := "8" }])
        (some [areaRecDemo])).2.registryConsistent :=
  c9_registry_bijection true none
    (some [zoneRecDemo, { zoneRecDemo with id := "8" }]) (some [areaRecDemo])
    (by decide) (by decide)
